import Mathlib

/-!
Verification model of the Tally webhook ingestion handler (src/api/tally.js).

JSON values carried by the webhook payload are modelled by `JVal`
(integers stand in for JSON numbers).  The remote store is modelled as an
explicit `DB` state with an operation log; each store call appends the
operation it performed so that ordering facts can be stated.
-/

/-- JSON-ish value as it appears in a parsed webhook payload.  Numbers are
modelled as integers (the payloads under study carry only integral numbers). -/
inductive JVal where
  | vnull
  | vbool (b : Bool)
  | vnum (n : Int)
  | vstr (s : String)
  | varr (vs : List JVal)

/-- ASCII lowercase of one character (JS `toLowerCase` restricted to the
ASCII range the payloads use). -/
def jsCharToLower (c : Char) : Char :=
  if 'A' ≤ c && c ≤ 'Z' then Char.ofNat (c.toNat + 32) else c

/-- JS `String.prototype.toLowerCase` over the ASCII model. -/
def jsToLowerStr (s : String) : String := String.mk (s.toList.map jsCharToLower)

/-- JS `String.prototype.trim`: drop leading and trailing whitespace. -/
def jsTrim (s : String) : String :=
  String.mk (((s.toList.dropWhile Char.isWhitespace).reverse.dropWhile
    Char.isWhitespace).reverse)

/-- JS truthiness of a `JVal` (`!v` in the source negates this). -/
def jsTruthy : JVal → Bool
  | JVal.vnull => false
  | JVal.vbool b => b
  | JVal.vnum n => n != 0
  | JVal.vstr s => s != ""
  | JVal.varr _ => true

mutual

/-- JS `String(v)` conversion. -/
def jsToString : JVal → String
  | JVal.vnull => "null"
  | JVal.vbool b => if b then "true" else "false"
  | JVal.vnum n => toString n
  | JVal.vstr s => s
  | JVal.varr vs => String.intercalate "," (jsToStringArrElems vs)

/-- Elements of `Array.prototype.toString` (join with comma, null becomes empty). -/
def jsToStringArrElems : List JVal → List String
  | [] => []
  | JVal.vnull :: rest => "" :: jsToStringArrElems rest
  | v :: rest => jsToString v :: jsToStringArrElems rest

end

/-- JS strict equality `===` between two payload values.  Arrays compare by
reference in JS; two distinct nodes of a parsed payload are never the same
reference, so array values never compare equal here. -/
def jvalEqPrim : JVal → JVal → Bool
  | JVal.vnull, JVal.vnull => true
  | JVal.vbool a, JVal.vbool b => a == b
  | JVal.vnum a, JVal.vnum b => a == b
  | JVal.vstr a, JVal.vstr b => a == b
  | _, _ => false

/-- An option entry of a Tally field descriptor (`{id, text}`); a missing
member is `none` (JS `undefined`). -/
structure TOption where
  id : Option JVal := none
  text : Option JVal := none

/-- A Tally field descriptor (`{label, value, options?}`).  A missing or
non-string label is `none`; a missing or null value is `JVal.vnull` (the
source collapses both with `?? null` and treats both the same everywhere
else); `options` is `none` when absent or not an array. -/
structure TField where
  label : Option String := none
  value : JVal := JVal.vnull
  options : Option (List TOption) := none

/-- The request body as the handler reads it: `data.fields` when it is an
array, and the provider submission id candidates. -/
structure Body where
  fields : Option (List TField) := none
  submissionId : Option String := none
  responseId : Option String := none
  eventId : Option String := none

/-- `getFieldsArray` (tally.js:14): `body?.data?.fields` if an array, else `[]`. -/
def getFieldsArray (body : Body) : List TField :=
  body.fields.getD []

/-- `findFieldByLabel` (tally.js:19): first field whose label strictly equals
the requested label, else null. -/
def findFieldByLabel (body : Body) (label : String) : Option TField :=
  (getFieldsArray body).find? (fun f => f.label == some label)

/-- `extractPublicCode` (tally.js:24): value of the hidden field labeled "w". -/
def extractPublicCode (body : Body) : JVal :=
  match findFieldByLabel body "w" with
  | some f => f.value
  | none => JVal.vnull

/-- `extractFormType` (tally.js:30). -/
def extractFormType (body : Body) : JVal :=
  match findFieldByLabel body "form_type" with
  | some f => f.value
  | none => JVal.vnull

/-- `extractHouseId` (tally.js:35). -/
def extractHouseId (body : Body) : JVal :=
  match findFieldByLabel body "house_id" with
  | some f => f.value
  | none => JVal.vnull

/-- First truthy string of a JS `||` chain (empty strings are falsy). -/
def firstTruthyStr : List (Option String) → Option String
  | [] => none
  | some s :: rest => if s == "" then firstTruthyStr rest else some s
  | none :: rest => firstTruthyStr rest

/-- `extractProviderSubmissionId` (tally.js:40):
`body?.data?.submissionId || body?.data?.responseId || body?.eventId || null`. -/
def extractProviderSubmissionId (body : Body) : Option String :=
  firstTruthyStr [body.submissionId, body.responseId, body.eventId]

/-- Lookup in a JS `Map` built from an association list: a later entry with
the same key overrides an earlier one.  Keys compare with SameValueZero,
here `idKeyEq`. -/
def idKeyEq : Option JVal → Option JVal → Bool
  | some a, some b => jvalEqPrim a b
  | none, none => true
  | _, _ => false

def mapLookupLast (entries : List (Option JVal × Option JVal)) (k : Option JVal) :
    Option (Option JVal) :=
  match entries with
  | [] => none
  | (k0, v0) :: rest =>
    match mapLookupLast rest k with
    | some v => some v
    | none => if idKeyEq k0 k then some v0 else none

/-- `resolveOptionTexts` (tally.js:45): scalars pass through; arrays map
option ids to option texts when the id is a key of the options map, then
drop null/undefined entries; anything else resolves to null. -/
def resolveOptionTexts (field : Option TField) : JVal :=
  match field with
  | none => JVal.vnull
  | some f =>
    match f.value with
    | JVal.vstr s => JVal.vstr s
    | JVal.vnum n => JVal.vnum n
    | JVal.vbool b => JVal.vbool b
    | JVal.varr vs =>
      let options := f.options.getD []
      let idToText := options.map (fun o => (o.id, o.text))
      JVal.varr ((vs.map (fun v =>
          match mapLookupLast idToText (some v) with
          | some t => t
          | none => some v)).filterMap (fun x =>
        match x with
        | none => none
        | some JVal.vnull => none
        | some v => some v))
    | JVal.vnull => JVal.vnull

/-- The contact fields pulled by `extractContactSheetFields` (tally.js:69). -/
structure ExtractedContact where
  primary_name : Option String
  phone_raw : JVal
  email_raw : JVal
  address_line_1 : JVal
  address_line_2 : JVal
  city : JVal
  state : JVal
  postal_code : JVal
  country : JVal

/-- Field value by label, with the source collapse `?.value ?? null`. -/
def fieldValue (body : Body) (label : String) : JVal :=
  match findFieldByLabel body label with
  | some f => f.value
  | none => JVal.vnull

/-- `extractContactSheetFields` (tally.js:69).  The primary name joins the
truthy parts of first and last name with a space, trims, and is null when
the trimmed join is empty. -/
def extractContactSheetFields (body : Body) : ExtractedContact :=
  let firstName := fieldValue body "first_name"
  let lastName := fieldValue body "last_name"
  let parts := ([firstName, lastName].filter jsTruthy).map jsToString
  let joined := jsTrim (String.intercalate " " parts)
  { primary_name := if joined == "" then none else some joined
    phone_raw := fieldValue body "phone_number"
    email_raw := fieldValue body "email"
    address_line_1 := fieldValue body "address_line_1"
    address_line_2 := fieldValue body "address_line_2"
    city := fieldValue body "city"
    state := fieldValue body "state"
    postal_code := fieldValue body "postal_code"
    country := fieldValue body "country" }

/-- The RSVP fields pulled by `extractRsvpFields` (tally.js:90). -/
structure RsvpFields where
  rsvp_status : Option String
  events_attending : Option (List String)
  dietary_notes : JVal
  questions : JVal
  party_size : Option Int

/-- JS `Number(s)` on a trimmed-nonempty string, restricted to the integer
model: non-integer numerals (floats, NaN) are outside the model and map to 0;
the extracted party size is never consumed by any later code path. -/
def jsStringToInt (s : String) : Int :=
  ((jsTrim s).toInt?).getD 0

/-- `extractRsvpFields` (tally.js:90). -/
def extractRsvpFields (body : Body) : RsvpFields :=
  let rsvpField := findFieldByLabel body "rsvp_status"
  let eventsField := findFieldByLabel body "events_attending"
  let dietaryField := findFieldByLabel body "dietary_notes"
  let questionsField := findFieldByLabel body "questions"
  let partySizeField := findFieldByLabel body "party_size"
  let rsvpResolved := resolveOptionTexts rsvpField
  let rsvpText : JVal :=
    match rsvpResolved with
    | JVal.varr vs => vs.headD JVal.vnull
    | v => v
  { rsvp_status :=
      match rsvpText with
      | JVal.vstr s => some s
      | _ => none
    events_attending :=
      match resolveOptionTexts eventsField with
      | JVal.varr vs => some (vs.filterMap (fun v =>
          match v with
          | JVal.vstr s => if (jsTrim s).length > 0 then some s else none
          | _ => none))
      | _ => none
    dietary_notes :=
      match dietaryField with
      | some f => f.value
      | none => JVal.vnull
    questions :=
      match questionsField with
      | some f => f.value
      | none => JVal.vnull
    party_size :=
      match partySizeField with
      | none => none
      | some f =>
        match f.value with
        | JVal.vnum n => some n
        | JVal.vstr s => if jsTrim s == "" then none else some (jsStringToInt s)
        | _ => none }

/-- `normalizePhone` (tally.js:125): falsy input is null; otherwise keep the
digits of the stringified input; fewer than 10 digits is null, exactly 10
gains the "+1" country code, 11 or more gain a leading "+". -/
def normalizePhone (phone : JVal) : Option String :=
  if !(jsTruthy phone) then none
  else
    let digits := String.mk ((jsToString phone).toList.filter Char.isDigit)
    if digits.length < 10 then none
    else if digits.length == 10 then some ("+1" ++ digits)
    else some ("+" ++ digits)

/-- `normalizeEmail` (tally.js:132): falsy input is null; otherwise trim and
lowercase the stringified input. -/
def normalizeEmail (email : JVal) : Option String :=
  if !(jsTruthy email) then none
  else some (jsToLowerStr (jsTrim (jsToString email)))

/-- `normalizeRsvpStatus` (tally.js:137). -/
def normalizeRsvpStatus (s : Option String) : Option String :=
  match s with
  | none => none
  | some str =>
    if str == "" then none
    else
      let v := jsToLowerStr (jsTrim str)
      if v == "yes" || v == "y" then some "yes"
      else if v == "no" || v == "n" then some "no"
      else none

/-- `isUuid` (tally.js:3): the case-insensitive 8-4-4-4-12 hex pattern with
version digit 1-5 at index 14 and variant nibble 8/9/a/b at index 19. -/
def isHexChar (c : Char) : Bool :=
  c.isDigit || (('a' ≤ c && c ≤ 'f') || ('A' ≤ c && c ≤ 'F'))

def isUuid (s : String) : Bool :=
  let cs := s.toList
  cs.length == 36 &&
  (List.range 36).all (fun i =>
    let c := cs.getD i ' '
    if i == 8 || i == 13 || i == 18 || i == 23 then c == '-'
    else if i == 14 then ['1', '2', '3', '4', '5'].contains c
    else if i == 19 then ['8', '9', 'a', 'b'].contains c.toLower
    else isHexChar c)

/-- `isUuid` applied to a payload value: non-strings never match. -/
def isUuidJ : JVal → Bool
  | JVal.vstr s => isUuid s
  | _ => false

/-- JS truthiness of an optional string (absent and empty are falsy). -/
def truthyOptStr : Option String → Bool
  | some s => s != ""
  | none => false

/-- A tenant row of the read-only `weddings` table. -/
structure Wedding where
  wedding_id : String
  public_code : String

/-- A row of the append-only `submissions_raw` ledger. -/
structure RawSubmission where
  id : Nat
  wedding_id : String
  provider : String
  provider_submission_id : Option String
  payload : Body

/-- A row of the `households` table. -/
structure Household where
  id : String
  wedding_id : String
  primary_name : String
  phone_raw : JVal
  phone_normalized : Option String
  email_raw : JVal
  email_normalized : Option String
  address_line_1 : JVal
  address_line_2 : JVal
  city : JVal
  state : JVal
  postal_code : JVal
  country : JVal
  last_submission_id : Option Nat
  updated_at : Nat

/-- A row of the `guests` table. The columns this handler never writes
(`party_size`, `last_submission_id`) are part of the schema. -/
structure Guest where
  id : Nat
  household_id : String
  wedding_id : String
  rsvp_status : Option String
  dietary_notes : JVal
  questions : JVal
  events_attending : Option (List String)
  party_size : Option Int
  last_submission_id : Option Nat
  updated_at : Nat

/-- A store operation, recorded in the order the handler issues it. -/
inductive StoreOp where
  | selectWedding (public_code : String)
  | insertRaw (wedding_id : String) (provider_submission_id : Option String)
  | selectRawExisting (wedding_id : String) (provider_submission_id : String)
  | selectHouseholdByPhone (wedding_id : String) (phone_normalized : String)
  | selectHouseholdByEmail (wedding_id : String) (email_normalized : String)
  | updateHousehold (id : String)
  | insertHousehold (wedding_id : String)
  | selectHouseholdById (id : String) (wedding_id : String)
  | updateGuests (household_id : String) (wedding_id : String)

/-- The remote store, with an operation log. -/
structure DB where
  weddings : List Wedding
  submissions_raw : List RawSubmission
  households : List Household
  guests : List Guest
  nextRawId : Nat
  nextHouseholdKey : Nat
  log : List StoreOp

/-- `.maybeSingle()`: none for zero rows, the row for one, an error for more. -/
def maybeSingle {α : Type} (rows : List α) : Except String (Option α) :=
  match rows with
  | [] => Except.ok none
  | [x] => Except.ok (some x)
  | _ => Except.error "JSON object requested, multiple (or no) rows returned"

/-- The store rejects a ledger insert exactly when the row would repeat an
existing (tenant, provider, provider-submission-id) key with the id present;
absent ids never conflict (store nulls are pairwise distinct). -/
def rawKeyConflict (db : DB) (wid : String) (psid : Option String) : Bool :=
  match psid with
  | none => false
  | some p => db.submissions_raw.any (fun r =>
      r.wedding_id == wid && r.provider == "tally" && r.provider_submission_id == some p)

/-- The uniqueness-violation message the store reports on a ledger conflict. -/
def dupErrMsg : String := "duplicate key value violates unique constraint"

/-- `insert into submissions_raw ... select id single` (tally.js:336). -/
def insertRawOp (db : DB) (wid : String) (psid : Option String) (payload : Body) :
    DB × Except String Nat :=
  let db1 := { db with log := db.log ++ [StoreOp.insertRaw wid psid] }
  if rawKeyConflict db1 wid psid then (db1, Except.error dupErrMsg)
  else
    let rid := db1.nextRawId
    ({ db1 with
        submissions_raw := db1.submissions_raw ++
          [{ id := rid, wedding_id := wid, provider := "tally",
             provider_submission_id := psid, payload := payload }],
        nextRawId := rid + 1 },
     Except.ok rid)

/-- The duplicate lookup of tally.js:354. -/
def selectRawExisting (db : DB) (wid : String) (p : String) :
    DB × Except String (Option RawSubmission) :=
  let db1 := { db with log := db.log ++ [StoreOp.selectRawExisting wid p] }
  (db1, maybeSingle (db1.submissions_raw.filter (fun r =>
      r.wedding_id == wid && r.provider == "tally" && r.provider_submission_id == some p)))

/-- The wedding lookup of tally.js:314. -/
def selectWeddingOp (db : DB) (code : String) : DB × Except String (Option Wedding) :=
  let db1 := { db with log := db.log ++ [StoreOp.selectWedding code] }
  (db1, maybeSingle (db1.weddings.filter (fun w => w.public_code == code)))

/-- The phone-based household lookup of tally.js:183. -/
def selectHouseholdByPhone (db : DB) (wid : String) (p : String) :
    DB × Except String (Option Household) :=
  let db1 := { db with log := db.log ++ [StoreOp.selectHouseholdByPhone wid p] }
  (db1, maybeSingle (db1.households.filter (fun h =>
      h.wedding_id == wid && h.phone_normalized == some p)))

/-- The email-based household lookup of tally.js:195. -/
def selectHouseholdByEmail (db : DB) (wid : String) (e : String) :
    DB × Except String (Option Household) :=
  let db1 := { db with log := db.log ++ [StoreOp.selectHouseholdByEmail wid e] }
  (db1, maybeSingle (db1.households.filter (fun h =>
      h.wedding_id == wid && h.email_normalized == some e)))

/-- The household lookup by id and tenant of tally.js:260. -/
def selectHouseholdByIdAndWedding (db : DB) (hid : String) (wid : String) :
    DB × Except String (Option Household) :=
  let db1 := { db with log := db.log ++ [StoreOp.selectHouseholdById hid wid] }
  (db1, maybeSingle (db1.households.filter (fun h =>
      h.id == hid && h.wedding_id == wid)))

/-- The `payload` object assembled at tally.js:163. -/
structure HouseholdPayload where
  wedding_id : String
  primary_name : String
  phone_raw : JVal
  phone_normalized : Option String
  email_raw : JVal
  email_normalized : Option String
  address_line_1 : JVal
  address_line_2 : JVal
  city : JVal
  state : JVal
  postal_code : JVal
  country : JVal
  last_submission_id : Option Nat
  updated_at : Nat

/-- tally.js:163-178. -/
def mkHouseholdPayload (wid : String) (e : ExtractedContact)
    (phoneN emailN : Option String) (rsid : Option Nat) (now : Nat) : HouseholdPayload :=
  { wedding_id := wid
    primary_name := e.primary_name.getD "Unknown"
    phone_raw := e.phone_raw
    phone_normalized := phoneN
    email_raw := e.email_raw
    email_normalized := emailN
    address_line_1 := e.address_line_1
    address_line_2 := e.address_line_2
    city := e.city
    state := e.state
    postal_code := e.postal_code
    country := e.country
    last_submission_id := rsid
    updated_at := now }

/-- `update(payload)` overwrites every payload column of a matched row. -/
def applyHouseholdPayload (p : HouseholdPayload) (h : Household) : Household :=
  { h with
    wedding_id := p.wedding_id
    primary_name := p.primary_name
    phone_raw := p.phone_raw
    phone_normalized := p.phone_normalized
    email_raw := p.email_raw
    email_normalized := p.email_normalized
    address_line_1 := p.address_line_1
    address_line_2 := p.address_line_2
    city := p.city
    state := p.state
    postal_code := p.postal_code
    country := p.country
    last_submission_id := p.last_submission_id
    updated_at := p.updated_at }

/-- The household update of tally.js:207 (every row whose id matches). -/
def updateHouseholdOp (db : DB) (hid : String) (p : HouseholdPayload) :
    DB × Except String Unit :=
  ({ db with
      households := db.households.map (fun h =>
        if h.id == hid then applyHouseholdPayload p h else h)
      log := db.log ++ [StoreOp.updateHousehold hid] },
   Except.ok ())

/-- A store-generated fresh household id. -/
def genHouseholdId (n : Nat) : String := "hh-" ++ Nat.repr n

/-- A new household row from an insert payload. -/
def householdOfPayload (hid : String) (p : HouseholdPayload) : Household :=
  { id := hid
    wedding_id := p.wedding_id
    primary_name := p.primary_name
    phone_raw := p.phone_raw
    phone_normalized := p.phone_normalized
    email_raw := p.email_raw
    email_normalized := p.email_normalized
    address_line_1 := p.address_line_1
    address_line_2 := p.address_line_2
    city := p.city
    state := p.state
    postal_code := p.postal_code
    country := p.country
    last_submission_id := p.last_submission_id
    updated_at := p.updated_at }

/-- The household insert of tally.js:212. -/
def insertHouseholdOp (db : DB) (p : HouseholdPayload) : DB × Except String String :=
  let hid := genHouseholdId db.nextHouseholdKey
  ({ db with
      households := db.households ++ [householdOfPayload hid p]
      nextHouseholdKey := db.nextHouseholdKey + 1
      log := db.log ++ [StoreOp.insertHousehold p.wedding_id] },
   Except.ok hid)

/-- The `updatePayload` object assembled at tally.js:242-257: the RSVP status
and timestamp are unconditional; the optional columns carry a value only when
the corresponding field extraction produced one. -/
structure GuestUpdate where
  rsvp_status : String
  updated_at : Nat
  dietary_notes : Option JVal := none
  questions : Option JVal := none
  events_attending : Option (List String) := none

/-- tally.js:242-257. -/
def mkGuestUpdate (fields : RsvpFields) (status : String) (now : Nat) : GuestUpdate :=
  { rsvp_status := status
    updated_at := now
    dietary_notes :=
      match fields.dietary_notes with
      | JVal.vnull => none
      | v => some v
    questions :=
      match fields.questions with
      | JVal.vnull => none
      | v => some v
    events_attending := fields.events_attending }

/-- The store applies only the columns present in the update object; absent
columns keep their stored value. -/
def applyGuestUpdate (u : GuestUpdate) (g : Guest) : Guest :=
  { g with
    rsvp_status := some u.rsvp_status
    updated_at := u.updated_at
    dietary_notes :=
      match u.dietary_notes with
      | some v => v
      | none => g.dietary_notes
    questions :=
      match u.questions with
      | some v => v
      | none => g.questions
    events_attending :=
      match u.events_attending with
      | some l => some l
      | none => g.events_attending }

/-- The guest fan-out update of tally.js:278, returning the matched-row
count. -/
def updateGuestsOp (db : DB) (hid : String) (wid : String) (u : GuestUpdate) :
    DB × Nat :=
  ({ db with
      guests := db.guests.map (fun g =>
        if g.household_id == hid && g.wedding_id == wid then applyGuestUpdate u g else g)
      log := db.log ++ [StoreOp.updateGuests hid wid] },
   (db.guests.filter (fun g => g.household_id == hid && g.wedding_id == wid)).length)

/-- The result object a processor hands back to the router; absent keys of
the JS object are `none`. -/
structure ProcResult where
  ok : Bool
  status : Option Nat := none
  error : Option String := none
  household_id : Option String := none
  action : Option String := none
  guests_updated : Option Nat := none
  received_house_id : Option JVal := none
  received_rsvp_status : Option (Option String) := none

/-- The 500 result a processor returns when the store reports a failure. -/
def serverError (msg : String) : ProcResult :=
  { ok := false, status := some 500, error := some msg }

/-- The insert tail of `upsertHouseholdFromContactSheet` (tally.js:212-214). -/
def contactInsertFinish (db2 : DB) (payload : HouseholdPayload) : DB × ProcResult :=
  let ins := insertHouseholdOp db2 payload
  match ins.snd with
  | Except.error msg => (ins.fst, serverError msg)
  | Except.ok newId =>
    (ins.fst, { ok := true, household_id := some newId, action := some "inserted" })

/-- The final write of the contact-sheet upsert (tally.js:206-214): update
the matched household in place, or insert a new one. -/
def contactFinish (db2 : DB) (existing : Option Household) (payload : HouseholdPayload) :
    DB × ProcResult :=
  match existing with
  | some h =>
    if h.id == "" then contactInsertFinish db2 payload
    else
      let upd := updateHouseholdOp db2 h.id payload
      match upd.snd with
      | Except.error msg => (upd.fst, serverError msg)
      | Except.ok _ =>
        (upd.fst, { ok := true, household_id := some h.id, action := some "updated" })
  | none => contactInsertFinish db2 payload

/-- The email phase of the contact-sheet upsert (tally.js:194-204): search by
normalized email only when the phone phase found nothing. -/
def contactEmailPhase (db1 : DB) (wid : String) (existing0 : Option Household)
    (emailN : Option String) (payload : HouseholdPayload) : DB × ProcResult :=
  let step2 :=
    if existing0.isNone then
      match emailN with
      | some e =>
        if e == "" then (db1, Except.ok none) else selectHouseholdByEmail db1 wid e
      | none => (db1, Except.ok none)
    else (db1, Except.ok none)
  let db2 := step2.fst
  match step2.snd with
  | Except.error msg => (db2, serverError msg)
  | Except.ok existing1 =>
    contactFinish db2 (if existing0.isSome then existing0 else existing1) payload

/-- `upsertHouseholdFromContactSheet` (tally.js:149-215). -/
def upsertHouseholdFromContactSheet (db : DB) (weddingId : String)
    (rawSubmissionId : Option Nat) (body : Body) (now : Nat) : DB × ProcResult :=
  let extracted := extractContactSheetFields body
  let phoneNormalized := normalizePhone extracted.phone_raw
  let emailNormalized := normalizeEmail extracted.email_raw
  if !(truthyOptStr phoneNormalized) && !(truthyOptStr emailNormalized) then
    (db, { ok := false, status := some 400,
           error := some "Missing phone_number and email. Provide at least one so we can dedupe/update the household." })
  else
    let payload := mkHouseholdPayload weddingId extracted phoneNormalized emailNormalized
      rawSubmissionId now
    let step1 :=
      match phoneNormalized with
      | some p => if p == "" then (db, Except.ok none) else selectHouseholdByPhone db weddingId p
      | none => (db, Except.ok none)
    let db1 := step1.fst
    match step1.snd with
    | Except.error msg => (db1, serverError msg)
    | Except.ok existing0 =>
      contactEmailPhase db1 weddingId existing0 emailNormalized payload

/-- The 404 result of tally.js:268-275. -/
def rsvpNotFound (houseId : JVal) : ProcResult :=
  { ok := false, status := some 404,
    error := some "Household not found for this wedding (invalid house_id for this w).",
    received_house_id := some houseId }

/-- `updateGuestsFromRsvp` (tally.js:217-287). -/
def updateGuestsFromRsvp (db : DB) (weddingId : String) (rawSubmissionId : Option Nat)
    (body : Body) (now : Nat) : DB × ProcResult :=
  let houseId := extractHouseId body
  if !(isUuidJ houseId) then
    (db, { ok := false, status := some 400,
           error := some "Missing or invalid house_id. Expect a UUID in hidden field labeled \x27house_id\x27.",
           received_house_id := some houseId })
  else
    match houseId with
    | JVal.vstr hid =>
      let fields := extractRsvpFields body
      match normalizeRsvpStatus fields.rsvp_status with
      | none =>
        (db, { ok := false, status := some 400,
               error := some "Missing or invalid rsvp_status. Expected option text \x27Yes\x27/\x27No\x27 (stored as yes/no).",
               received_rsvp_status := some fields.rsvp_status })
      | some status =>
        let updatePayload := mkGuestUpdate fields status now
        let sel := selectHouseholdByIdAndWedding db hid weddingId
        let db1 := sel.fst
        match sel.snd with
        | Except.error msg => (db1, serverError msg)
        | Except.ok found =>
          match found with
          | some h =>
            if h.id == "" then (db1, rsvpNotFound (JVal.vstr hid))
            else
              let upd := updateGuestsOp db1 hid weddingId updatePayload
              (upd.fst, { ok := true, household_id := some hid,
                          guests_updated := some upd.snd, action := some "updated_rsvp" })
          | none => (db1, rsvpNotFound (JVal.vstr hid))
    | _ =>
      (db, { ok := false, status := some 400,
             error := some "Missing or invalid house_id. Expect a UUID in hidden field labeled \x27house_id\x27.",
             received_house_id := some houseId })

/-- Character-list test that `p` occurs at the start. -/
def charsStartWith : List Char → List Char → Bool
  | _, [] => true
  | [], _ :: _ => false
  | c :: cs, p :: ps => c == p && charsStartWith cs ps

/-- JS `String.prototype.includes`: `pat` occurs somewhere in `s`. -/
def containsToken (s pat : String) : Bool :=
  let rec go : List Char → Bool
    | [] => pat.toList.isEmpty
    | c :: cs => charsStartWith (c :: cs) pat.toList || go cs
  go s.toList

/-- The duplicate-detection of tally.js:348-349: lowercase the message and
look for "duplicate" or "unique". -/
def isDuplicateMsg (msg : String) : Bool :=
  containsToken (jsToLowerStr msg) "duplicate" ||
  containsToken (jsToLowerStr msg) "unique"

/-- The recovery logic of tally.js:347-367, parameterized by the outcome of
the raw insert: a non-duplicate failure is surfaced; a duplicate failure is
recovered by looking up the existing row when the provider submission id is
present, and is otherwise ignored with a null ledger reference. -/
def ledgerRecover (db : DB) (wid : String) (psid : Option String)
    (ins : Except String Nat) : DB × Except String (Option Nat) :=
  match ins with
  | Except.ok rid => (db, Except.ok (some rid))
  | Except.error msg =>
    if !(isDuplicateMsg msg) then (db, Except.error msg)
    else
      match psid with
      | some p =>
        let fetch := selectRawExisting db wid p
        match fetch.snd with
        | Except.error m2 => (fetch.fst, Except.error m2)
        | Except.ok row => (fetch.fst, Except.ok (row.map RawSubmission.id))
      | none => (db, Except.ok none)

/-- The complete ledgering step the router performs (tally.js:336-367). -/
def performLedger (db : DB) (wid : String) (psid : Option String) (payload : Body) :
    DB × Except String (Option Nat) :=
  let ins := insertRawOp db wid psid payload
  ledgerRecover ins.fst wid psid ins.snd

/-- The JSON body of a handler response; keys the source never emits on a
branch are `none` there. -/
structure RespBody where
  ok : Bool
  error : Option String := none
  received_w : Option JVal := none
  routed : Option String := none
  household_id : Option String := none
  action : Option String := none
  guests_updated : Option Nat := none
  form_type : Option JVal := none
  statusKey : Option Nat := none
  received_house_id : Option JVal := none
  received_rsvp_status : Option (Option String) := none

/-- An HTTP response: the bare 200 "OK" for non-POST, or a status and JSON body. -/
inductive HttpResponse where
  | sendOk
  | json (status : Nat) (body : RespBody)

/-- `result.status || 500` (0 is falsy in JS). -/
def statusOrDefault : Option Nat → Nat
  | some n => if n == 0 then 500 else n
  | none => 500

/-- The rsvp failure response body `{ok:false, ...result}` (tally.js:395). -/
def rsvpFailureBody (r : ProcResult) : RespBody :=
  { ok := false
    error := r.error
    statusKey := r.status
    household_id := r.household_id
    action := r.action
    guests_updated := r.guests_updated
    received_house_id := r.received_house_id
    received_rsvp_status := r.received_rsvp_status }

/-- The 400 response for a missing public code (tally.js:301-307). -/
def missingCodeResp (publicCode : JVal) : HttpResponse :=
  HttpResponse.json 400
    { ok := false
      error := some "Missing public wedding code. Expect a hidden field labeled \x27w\x27 (e.g. TT01)."
      received_w := some publicCode }

/-- The 400 response for an unknown public code (tally.js:324-330). -/
def unknownCodeResp (publicCode : JVal) : HttpResponse :=
  HttpResponse.json 400
    { ok := false
      error := some "Unknown public wedding code (no matching wedding found)."
      received_w := some publicCode }

/-- The inbound request: its method and its parsed JSON body (absent when
the transport supplied none; `req.body || {}`). -/
structure Request where
  method : String
  body : Option Body

/-- The routing that runs once the tenant is resolved (tally.js:332-406):
ledger the raw payload, then dispatch on the form type. -/
def afterResolve (db : DB) (wid : String) (body : Body) (formType : JVal) (now : Nat) :
    DB × HttpResponse :=
  let psid := extractProviderSubmissionId body
  let led := performLedger db wid psid body
  let db1 := led.fst
  match led.snd with
  | Except.error msg =>
    (db1, HttpResponse.json 500 { ok := false, error := some msg })
  | Except.ok rawSubmissionId =>
    if jvalEqPrim formType (JVal.vstr "contact_sheet") then
      let run := upsertHouseholdFromContactSheet db1 wid rawSubmissionId body now
      let result := run.snd
      if !result.ok then
        (run.fst, HttpResponse.json (statusOrDefault result.status)
          { ok := false, error := result.error })
      else
        (run.fst, HttpResponse.json 200
          { ok := true, routed := some "contact_sheet",
            household_id := result.household_id, action := result.action })
    else if jvalEqPrim formType (JVal.vstr "rsvp") then
      let run := updateGuestsFromRsvp db1 wid rawSubmissionId body now
      let result := run.snd
      if !result.ok then
        (run.fst, HttpResponse.json (statusOrDefault result.status) (rsvpFailureBody result))
      else
        (run.fst, HttpResponse.json 200
          { ok := true, routed := some "rsvp",
            household_id := result.household_id,
            guests_updated := result.guests_updated, action := result.action })
    else
      (db1, HttpResponse.json 200
        { ok := true, routed := some "raw_only", form_type := some formType })

/-- The exported handler (tally.js:293-411). -/
def handler (db : DB) (req : Request) (now : Nat) : DB × HttpResponse :=
  if req.method != "POST" then (db, HttpResponse.sendOk)
  else
    let body := req.body.getD {}
    let publicCode := extractPublicCode body
    let formType := extractFormType body
    match publicCode with
    | JVal.vstr code =>
      if (jsTrim code).length == 0 then (db, missingCodeResp publicCode)
      else
        let look := selectWeddingOp db code
        let db1 := look.fst
        match look.snd with
        | Except.error msg =>
          (db1, HttpResponse.json 500 { ok := false, error := some msg })
        | Except.ok wrow =>
          match wrow with
          | some w =>
            if !(isUuid w.wedding_id) then (db1, unknownCodeResp publicCode)
            else afterResolve db1 w.wedding_id body formType now
          | none => (db1, unknownCodeResp publicCode)
    | other => (db, missingCodeResp other)

/-! ### Shared lemmas about the store model -/

theorem find?_eq_head?_filter {α : Type} (p : α → Bool) (l : List α) :
    l.find? p = (l.filter p).head? := by
  induction l with
  | nil => rfl
  | cons a t ih =>
    rw [List.find?_cons, List.filter_cons]
    cases h : p a with
    | true => rfl
    | false => simp

theorem maybeSingle_filter {α : Type} (p : α → Bool) (l : List α)
    (h : (l.filter p).length ≤ 1) :
    maybeSingle (l.filter p) = Except.ok (l.find? p) := by
  rw [find?_eq_head?_filter]
  match hf : l.filter p with
  | [] => rfl
  | [x] => rfl
  | x :: y :: t => rw [hf] at h; simp at h

theorem map_if_id {α : Type} (p : α → Bool) (f : α → α) (l : List α)
    (h : l.filter p = []) :
    l.map (fun x => if p x then f x else x) = l := by
  induction l with
  | nil => rfl
  | cons a t ih =>
    rw [List.filter_cons] at h
    cases ha : p a with
    | true => rw [ha] at h; simp at h
    | false =>
      rw [ha] at h
      simp only [Bool.false_eq_true, if_false] at h
      rw [List.map_cons, ha]
      simp only [Bool.false_eq_true, if_false]
      rw [ih h]

/-! ### Claim theorems -/

/-- C6: phone normalization keeps only the digit characters of the input;
fewer than 10 digits yields absence, exactly 10 digits gain the default
country calling code "+1", and 11 or more digits gain a leading plus sign;
in particular "555-123-4567" becomes "+15551234567", "14155550123" becomes
"+14155550123", "123" is rejected, and an absent input is rejected. -/
theorem normalizePhone_digit_rules :
    (∀ s : String,
      normalizePhone (JVal.vstr s) =
        (let digits := String.mk (s.toList.filter Char.isDigit)
         if digits.length < 10 then none
         else if digits.length == 10 then some ("+1" ++ digits)
         else some ("+" ++ digits))) ∧
    normalizePhone JVal.vnull = none ∧
    normalizePhone (JVal.vstr "555-123-4567") = some "+15551234567" ∧
    normalizePhone (JVal.vstr "14155550123") = some "+14155550123" ∧
    normalizePhone (JVal.vstr "123") = none := by
  refine ⟨fun s => ?_, rfl, by decide, by decide, by decide⟩
  by_cases hs : s = ""
  · subst hs; rfl
  · have ht : (s != "") = true := by simpa using hs
    simp only [normalizePhone, jsTruthy, jsToString, ht, Bool.not_true,
      Bool.false_eq_true, if_false]

/-- C8: RSVP-status normalization trims and lowercases, maps yes/y to "yes"
and no/n to "no", and rejects anything else, including the absent input; in
particular "Yes", "y" and " YES " normalize to "yes" and "maybe" is
rejected. -/
theorem normalizeRsvpStatus_rules :
    (∀ s : String,
      normalizeRsvpStatus (some s) =
        (let v := jsToLowerStr (jsTrim s)
         if v = "yes" ∨ v = "y" then some "yes"
         else if v = "no" ∨ v = "n" then some "no"
         else none)) ∧
    normalizeRsvpStatus none = none ∧
    normalizeRsvpStatus (some "Yes") = some "yes" ∧
    normalizeRsvpStatus (some "y") = some "yes" ∧
    normalizeRsvpStatus (some " YES ") = some "yes" ∧
    normalizeRsvpStatus (some "maybe") = none := by
  refine ⟨fun s => ?_, rfl, by decide, by decide, by decide, by decide⟩
  by_cases hs : s = ""
  · subst hs; rfl
  · have ht : (s == "") = false := by simpa using hs
    simp only [normalizeRsvpStatus, ht, Bool.false_eq_true, if_false, Bool.or_eq_true,
      beq_iff_eq]

/-! ### Concrete store states and payloads used by witnesses -/

def exHid : String := "11111111-1111-1111-8111-111111111111"

def exWid : String := "22222222-2222-2222-8222-222222222222"

def exWidB : String := "33333333-3333-3333-8333-333333333333"

def exBody : Body :=
  { fields := some
      [ { label := some "house_id", value := JVal.vstr exHid }
      , { label := some "rsvp_status", value := JVal.vstr "Yes" }
      , { label := some "party_size", value := JVal.vnum 5 } ] }

def exGuest : Guest :=
  { id := 1, household_id := exHid, wedding_id := exWid,
    rsvp_status := some "no", dietary_notes := JVal.vstr "vegan",
    questions := JVal.vnull, events_attending := some ["ceremony"],
    party_size := some 3, last_submission_id := some 7, updated_at := 10 }

def exHousehold : Household :=
  { id := exHid, wedding_id := exWid, primary_name := "Doe",
    phone_raw := JVal.vnull, phone_normalized := none, email_raw := JVal.vnull,
    email_normalized := none, address_line_1 := JVal.vnull, address_line_2 := JVal.vnull,
    city := JVal.vnull, state := JVal.vnull, postal_code := JVal.vnull,
    country := JVal.vnull, last_submission_id := none, updated_at := 0 }

def exDb : DB :=
  { weddings := [{ wedding_id := exWid, public_code := "TT01" }],
    submissions_raw := [], households := [exHousehold], guests := [exGuest],
    nextRawId := 0, nextHouseholdKey := 0, log := [] }

/-- C5: a contact-sheet submission with neither a usable normalized phone
nor a usable normalized email fails with a client 400 validation error and
performs no write: the store state is returned exactly unchanged. -/
theorem contact_upsert_requires_contact_key (db : DB) (wid : String)
    (rsid : Option Nat) (body : Body) (now : Nat)
    (hphone : truthyOptStr (normalizePhone (extractContactSheetFields body).phone_raw) = false)
    (hemail : truthyOptStr (normalizeEmail (extractContactSheetFields body).email_raw) = false) :
    upsertHouseholdFromContactSheet db wid rsid body now =
      (db, { ok := false, status := some 400,
             error := some "Missing phone_number and email. Provide at least one so we can dedupe/update the household." }) := by
  simp only [upsertHouseholdFromContactSheet, hphone, hemail, Bool.not_false,
    Bool.and_self, if_true]

def exBodyNoContact : Body :=
  { fields := some [{ label := some "first_name", value := JVal.vstr "Jane" }] }

/-- Witness for C5 at a concrete submission carrying only a first name. -/
theorem contact_upsert_requires_contact_key_witness :
    upsertHouseholdFromContactSheet exDb exWid none exBodyNoContact 3 =
      (exDb, { ok := false, status := some 400,
               error := some "Missing phone_number and email. Provide at least one so we can dedupe/update the household." }) :=
  contact_upsert_requires_contact_key exDb exWid none exBodyNoContact 3
    (by decide) (by decide)

/-- C3: for an RSVP submission with a syntactically valid household reference
and a valid status, the household lookup filters by both the household id and
the resolved tenant id; whenever that filter matches nothing — the id exists
under no tenant, or only under a different tenant — the outcome is one and
the same NotFound result (status 404, same shape), and no table is written. -/
theorem rsvp_household_lookup_tenant_isolated (db : DB) (wid : String)
    (rsid : Option Nat) (body : Body) (now : Nat) (hid st : String)
    (hh : extractHouseId body = JVal.vstr hid)
    (hu : isUuid hid = true)
    (hst : normalizeRsvpStatus (extractRsvpFields body).rsvp_status = some st)
    (hnone : db.households.filter (fun h => h.id == hid && h.wedding_id == wid) = []) :
    updateGuestsFromRsvp db wid rsid body now =
      ({ db with log := db.log ++ [StoreOp.selectHouseholdById hid wid] },
       rsvpNotFound (JVal.vstr hid)) := by
  simp only [updateGuestsFromRsvp, hh, isUuidJ, hu, Bool.not_true, Bool.false_eq_true,
    if_false, hst, selectHouseholdByIdAndWedding, hnone, maybeSingle]

/-- Witness for C3: the household id is valid under tenant `exWid`, but the
submission resolves to tenant `exWidB`; the outcome is the NotFound result. -/
theorem rsvp_household_lookup_tenant_isolated_witness :
    updateGuestsFromRsvp exDb exWidB (some 4) exBody 50 =
      ({ exDb with log := exDb.log ++ [StoreOp.selectHouseholdById exHid exWidB] },
       rsvpNotFound (JVal.vstr exHid)) :=
  rsvp_household_lookup_tenant_isolated exDb exWidB (some 4) exBody 50 exHid "yes"
    rfl (by decide) (by decide) rfl

/-- C10: a validated RSVP submission whose household exists under the
resolved tenant succeeds even when the household has no guest records: the
fan-out update matching zero rows is not an error, the response reports a
guest-updated count of 0, and the guest table is unchanged. -/
theorem rsvp_household_with_zero_guests_succeeds (db : DB) (wid : String)
    (rsid : Option Nat) (body : Body) (now : Nat) (hid st : String) (h : Household)
    (hh : extractHouseId body = JVal.vstr hid)
    (hu : isUuid hid = true)
    (hst : normalizeRsvpStatus (extractRsvpFields body).rsvp_status = some st)
    (hfound : db.households.filter (fun x => x.id == hid && x.wedding_id == wid) = [h])
    (hguests : db.guests.filter (fun g => g.household_id == hid && g.wedding_id == wid) = []) :
    updateGuestsFromRsvp db wid rsid body now =
      ({ db with guests := db.guests,
                 log := db.log ++ [StoreOp.selectHouseholdById hid wid,
                                   StoreOp.updateGuests hid wid] },
       { ok := true, household_id := some hid, guests_updated := some 0,
         action := some "updated_rsvp" }) := by
  have hmem : h ∈ db.households.filter (fun x => x.id == hid && x.wedding_id == wid) := by
    rw [hfound]; exact List.mem_singleton.mpr rfl
  have hpred := List.of_mem_filter hmem
  simp only [Bool.and_eq_true, beq_iff_eq] at hpred
  have hne : (h.id == "") = false := by
    cases hq : (h.id == "") with
    | false => rfl
    | true =>
      exfalso
      have h0 : h.id = "" := by simpa using hq
      have h1 : hid = "" := by rw [← hpred.1, h0]
      rw [h1] at hu
      exact absurd hu (by decide)
  have hmap := map_if_id (fun g : Guest => g.household_id == hid && g.wedding_id == wid)
    (applyGuestUpdate (mkGuestUpdate (extractRsvpFields body) st now)) db.guests hguests
  simp only [updateGuestsFromRsvp, hh, isUuidJ, hu, Bool.not_true, Bool.false_eq_true,
    if_false, hst, selectHouseholdByIdAndWedding, hfound, maybeSingle, hne,
    updateGuestsOp, hguests, List.length_nil, hmap, List.append_assoc, List.cons_append,
    List.nil_append]

def exDbNoGuests : DB :=
  { weddings := [{ wedding_id := exWid, public_code := "TT01" }],
    submissions_raw := [], households := [exHousehold], guests := [],
    nextRawId := 0, nextHouseholdKey := 0, log := [] }

/-- Witness for C10: the household exists under the tenant but owns no
guest records; the call succeeds with a zero count. -/
theorem rsvp_household_with_zero_guests_succeeds_witness :
    updateGuestsFromRsvp exDbNoGuests exWid (some 4) exBody 50 =
      ({ exDbNoGuests with guests := exDbNoGuests.guests,
                           log := exDbNoGuests.log ++ [StoreOp.selectHouseholdById exHid exWid,
                                                       StoreOp.updateGuests exHid exWid] },
       { ok := true, household_id := some exHid, guests_updated := some 0,
         action := some "updated_rsvp" }) :=
  rsvp_household_with_zero_guests_succeeds exDbNoGuests exWid (some 4) exBody 50 exHid "yes"
    exHousehold rfl (by decide) (by decide) rfl rfl

/-- C1 (amended): a successful RSVP application always sets the RSVP status
and the update timestamp on every guest of the household within the tenant;
dietary notes, questions and the attended-events list are written only when
the corresponding field was extracted as present, and an absent optional
field leaves the stored value unchanged; the party size and the
last-submission reference are never written to guest records, so their
stored values always stay unchanged. -/
theorem rsvp_update_sparse_and_never_writes_party_size (db : DB) (wid : String)
    (rsid : Option Nat) (body : Body) (now : Nat) (hid st : String) (h : Household)
    (hh : extractHouseId body = JVal.vstr hid)
    (hu : isUuid hid = true)
    (hst : normalizeRsvpStatus (extractRsvpFields body).rsvp_status = some st)
    (hfound : db.households.filter (fun x => x.id == hid && x.wedding_id == wid) = [h]) :
    (updateGuestsFromRsvp db wid rsid body now).snd =
      { ok := true, household_id := some hid,
        guests_updated := some ((db.guests.filter
          (fun g => g.household_id == hid && g.wedding_id == wid)).length),
        action := some "updated_rsvp" } ∧
    (updateGuestsFromRsvp db wid rsid body now).fst.guests =
      db.guests.map (fun g =>
        if g.household_id == hid && g.wedding_id == wid then
          applyGuestUpdate (mkGuestUpdate (extractRsvpFields body) st now) g
        else g) ∧
    (updateGuestsFromRsvp db wid rsid body now).fst.households = db.households ∧
    (updateGuestsFromRsvp db wid rsid body now).fst.submissions_raw = db.submissions_raw ∧
    (∀ fields stx nx (g : Guest),
        (applyGuestUpdate (mkGuestUpdate fields stx nx) g).rsvp_status = some stx ∧
        (applyGuestUpdate (mkGuestUpdate fields stx nx) g).updated_at = nx ∧
        (applyGuestUpdate (mkGuestUpdate fields stx nx) g).party_size = g.party_size ∧
        (applyGuestUpdate (mkGuestUpdate fields stx nx) g).last_submission_id =
          g.last_submission_id ∧
        (fields.dietary_notes = JVal.vnull →
          (applyGuestUpdate (mkGuestUpdate fields stx nx) g).dietary_notes =
            g.dietary_notes) ∧
        (fields.dietary_notes ≠ JVal.vnull →
          (applyGuestUpdate (mkGuestUpdate fields stx nx) g).dietary_notes =
            fields.dietary_notes) ∧
        (fields.questions = JVal.vnull →
          (applyGuestUpdate (mkGuestUpdate fields stx nx) g).questions = g.questions) ∧
        (fields.questions ≠ JVal.vnull →
          (applyGuestUpdate (mkGuestUpdate fields stx nx) g).questions = fields.questions) ∧
        (fields.events_attending = none →
          (applyGuestUpdate (mkGuestUpdate fields stx nx) g).events_attending =
            g.events_attending) ∧
        (∀ l, fields.events_attending = some l →
          (applyGuestUpdate (mkGuestUpdate fields stx nx) g).events_attending = some l)) := by
  have hmem : h ∈ db.households.filter (fun x => x.id == hid && x.wedding_id == wid) := by
    rw [hfound]; exact List.mem_singleton.mpr rfl
  have hpred := List.of_mem_filter hmem
  simp only [Bool.and_eq_true, beq_iff_eq] at hpred
  have hne : (h.id == "") = false := by
    cases hq : (h.id == "") with
    | false => rfl
    | true =>
      exfalso
      have h0 : h.id = "" := by simpa using hq
      have h1 : hid = "" := by rw [← hpred.1, h0]
      rw [h1] at hu
      exact absurd hu (by decide)
  refine ⟨?_, ?_, ?_, ?_, ?_⟩
  · simp only [updateGuestsFromRsvp, hh, isUuidJ, hu, Bool.not_true, Bool.false_eq_true,
      if_false, hst, selectHouseholdByIdAndWedding, hfound, maybeSingle, hne,
      updateGuestsOp]
  · simp only [updateGuestsFromRsvp, hh, isUuidJ, hu, Bool.not_true, Bool.false_eq_true,
      if_false, hst, selectHouseholdByIdAndWedding, hfound, maybeSingle, hne,
      updateGuestsOp]
  · simp only [updateGuestsFromRsvp, hh, isUuidJ, hu, Bool.not_true, Bool.false_eq_true,
      if_false, hst, selectHouseholdByIdAndWedding, hfound, maybeSingle, hne,
      updateGuestsOp]
  · simp only [updateGuestsFromRsvp, hh, isUuidJ, hu, Bool.not_true, Bool.false_eq_true,
      if_false, hst, selectHouseholdByIdAndWedding, hfound, maybeSingle, hne,
      updateGuestsOp]
  · intro fields stx nx g
    refine ⟨rfl, rfl, rfl, rfl, ?_, ?_, ?_, ?_, ?_, ?_⟩
    · intro hd; simp [applyGuestUpdate, mkGuestUpdate, hd]
    · intro hd
      cases hv : fields.dietary_notes with
      | vnull => exact absurd hv hd
      | vbool b => simp [applyGuestUpdate, mkGuestUpdate, hv]
      | vnum n => simp [applyGuestUpdate, mkGuestUpdate, hv]
      | vstr s => simp [applyGuestUpdate, mkGuestUpdate, hv]
      | varr vs => simp [applyGuestUpdate, mkGuestUpdate, hv]
    · intro hd; simp [applyGuestUpdate, mkGuestUpdate, hd]
    · intro hd
      cases hv : fields.questions with
      | vnull => exact absurd hv hd
      | vbool b => simp [applyGuestUpdate, mkGuestUpdate, hv]
      | vnum n => simp [applyGuestUpdate, mkGuestUpdate, hv]
      | vstr s => simp [applyGuestUpdate, mkGuestUpdate, hv]
      | varr vs => simp [applyGuestUpdate, mkGuestUpdate, hv]
    · intro hd; simp [applyGuestUpdate, mkGuestUpdate, hd]
    · intro l hl; simp [applyGuestUpdate, mkGuestUpdate, hl]

/-- C1 counterexample: a concrete successful RSVP submission carries a party
size of 5 (extracted as present) and a fresh ledger reference 99, yet the
stored guest keeps its old party size 3 and its old last-submission
reference 7: the update neither includes the party size nor sets the
last-submission reference. -/
theorem rsvp_update_drops_party_size_and_ledger_ref :
    (extractRsvpFields exBody).party_size = some 5 ∧
    (updateGuestsFromRsvp exDb exWid (some 99) exBody 1000).snd.ok = true ∧
    (updateGuestsFromRsvp exDb exWid (some 99) exBody 1000).fst.guests.map
      Guest.party_size = [some 3] ∧
    (updateGuestsFromRsvp exDb exWid (some 99) exBody 1000).fst.guests.map
      Guest.last_submission_id = [some 7] ∧
    ¬(∃ g ∈ (updateGuestsFromRsvp exDb exWid (some 99) exBody 1000).fst.guests,
        g.party_size = some 5) ∧
    ¬(∃ g ∈ (updateGuestsFromRsvp exDb exWid (some 99) exBody 1000).fst.guests,
        g.last_submission_id = some 99) :=
  ⟨by decide, by decide, by decide, by decide, by decide, by decide⟩

/-- Witness for the C1 amended theorem at the same concrete submission: the
present optional fields are applied, the absent ones keep their stored
values, and party size and ledger reference stay untouched. -/
theorem rsvp_update_sparse_and_never_writes_party_size_witness :
    (updateGuestsFromRsvp exDb exWid (some 99) exBody 1000).snd =
      { ok := true, household_id := some exHid,
        guests_updated := some ((exDb.guests.filter
          (fun g => g.household_id == exHid && g.wedding_id == exWid)).length),
        action := some "updated_rsvp" } ∧
    (updateGuestsFromRsvp exDb exWid (some 99) exBody 1000).fst.guests =
      exDb.guests.map (fun g =>
        if g.household_id == exHid && g.wedding_id == exWid then
          applyGuestUpdate (mkGuestUpdate (extractRsvpFields exBody) "yes" 1000) g
        else g) :=
  have hmain := rsvp_update_sparse_and_never_writes_party_size exDb exWid (some 99) exBody
    1000 exHid "yes" exHousehold rfl (by decide) (by decide) rfl
  ⟨hmain.1, hmain.2.1⟩

/-- The ledger row the store creates for a successful insert. -/
def rawRowOf (rid : Nat) (wid : String) (p : String) (body : Body) : RawSubmission :=
  { id := rid, wedding_id := wid, provider := "tally",
    provider_submission_id := some p, payload := body }

/-- Helper: when exactly one ledger row already carries the key, the insert
conflicts and the recovery returns that row's id without inserting. -/
theorem performLedger_dup (db : DB) (wid p : String) (body : Body) (e : RawSubmission)
    (he : db.submissions_raw.filter (fun r =>
        r.wedding_id == wid && r.provider == "tally" &&
        r.provider_submission_id == some p) = [e]) :
    performLedger db wid (some p) body =
      ({ db with log := db.log ++ [StoreOp.insertRaw wid (some p),
                                   StoreOp.selectRawExisting wid p] },
       Except.ok (some e.id)) := by
  have hdup : isDuplicateMsg dupErrMsg = true := by decide
  have hmem : e ∈ db.submissions_raw.filter (fun r =>
      r.wedding_id == wid && r.provider == "tally" &&
      r.provider_submission_id == some p) := by
    rw [he]; exact List.mem_singleton.mpr rfl
  have hprede := List.of_mem_filter hmem
  have hmem' := List.mem_of_mem_filter hmem
  have hconf : rawKeyConflict
      { db with log := db.log ++ [StoreOp.insertRaw wid (some p)] } wid (some p) = true := by
    simp only [rawKeyConflict, List.any_eq_true]
    exact ⟨e, hmem', hprede⟩
  simp only [performLedger, insertRawOp, hconf, if_true, ledgerRecover, hdup,
    Bool.not_true, Bool.false_eq_true, if_false, selectRawExisting, he, maybeSingle,
    Option.map, List.append_assoc, List.cons_append, List.nil_append]

/-- Helper: with no row carrying the key yet, the insert succeeds and
appends exactly one row. -/
theorem performLedger_fresh (db : DB) (wid p : String) (body : Body)
    (h0 : db.submissions_raw.filter (fun r =>
        r.wedding_id == wid && r.provider == "tally" &&
        r.provider_submission_id == some p) = []) :
    performLedger db wid (some p) body =
      ({ db with log := db.log ++ [StoreOp.insertRaw wid (some p)],
                 submissions_raw := db.submissions_raw ++ [rawRowOf db.nextRawId wid p body],
                 nextRawId := db.nextRawId + 1 },
       Except.ok (some db.nextRawId)) := by
  have hnall := List.filter_eq_nil_iff.mp h0
  have hconf : rawKeyConflict
      { db with log := db.log ++ [StoreOp.insertRaw wid (some p)] } wid (some p) = false := by
    simp only [rawKeyConflict, List.any_eq_false]
    intro r hr
    have := hnall r hr
    simpa using this
  simp only [performLedger, insertRawOp, hconf, Bool.false_eq_true, if_false,
    ledgerRecover, rawRowOf]

/-- C2: the ledger is idempotent under at-least-once delivery.  A
non-duplicate store failure is surfaced unchanged, and the router turns a
surfaced ledger failure into a 500 server error; an insert rejected by the
uniqueness constraint while the provider submission id is present is not a
failure: the already-recorded entry for the same (tenant, provider,
provider-submission-id) is looked up and its identifier returned, so a
first call inserts exactly one row and a repeated call returns the same
row id without inserting another. -/
theorem ledger_duplicate_recovery_idempotent (db : DB) (wid p : String) (body : Body) :
    (∀ (psid : Option String) (msg : String), isDuplicateMsg msg = false →
        ledgerRecover db wid psid (Except.error msg) = (db, Except.error msg)) ∧
    (∀ (dbx : DB) (widx : String) (bodyx : Body) (ftx : JVal) (nowx : Nat)
        (msg : String) (dbe : DB),
        performLedger dbx widx (extractProviderSubmissionId bodyx) bodyx =
          (dbe, Except.error msg) →
        afterResolve dbx widx bodyx ftx nowx =
          (dbe, HttpResponse.json 500 { ok := false, error := some msg })) ∧
    (∀ e, db.submissions_raw.filter (fun r =>
          r.wedding_id == wid && r.provider == "tally" &&
          r.provider_submission_id == some p) = [e] →
        performLedger db wid (some p) body =
          ({ db with log := db.log ++ [StoreOp.insertRaw wid (some p),
                                       StoreOp.selectRawExisting wid p] },
           Except.ok (some e.id))) ∧
    (db.submissions_raw.filter (fun r =>
          r.wedding_id == wid && r.provider == "tally" &&
          r.provider_submission_id == some p) = [] →
        (performLedger db wid (some p) body).snd = Except.ok (some db.nextRawId) ∧
        (performLedger db wid (some p) body).fst.submissions_raw =
          db.submissions_raw ++ [rawRowOf db.nextRawId wid p body] ∧
        (∀ body2 : Body,
          (performLedger (performLedger db wid (some p) body).fst wid (some p) body2).snd =
            Except.ok (some db.nextRawId) ∧
          (performLedger (performLedger db wid (some p) body).fst wid (some p)
              body2).fst.submissions_raw =
            (performLedger db wid (some p) body).fst.submissions_raw)) := by
  refine ⟨?_, ?_, ?_, ?_⟩
  · intro psid msg hm
    simp only [ledgerRecover, hm, Bool.not_false, if_true]
  · intro dbx widx bodyx ftx nowx msg dbe heq
    simp only [afterResolve, heq]
  · intro e he
    exact performLedger_dup db wid p body e he
  · intro h0
    have hfirst := performLedger_fresh db wid p body h0
    have hpredrow : (fun r : RawSubmission =>
        r.wedding_id == wid && r.provider == "tally" &&
        r.provider_submission_id == some p) (rawRowOf db.nextRawId wid p body) = true := by
      simp [rawRowOf]
    have hsub1 : (performLedger db wid (some p) body).fst.submissions_raw =
        db.submissions_raw ++ [rawRowOf db.nextRawId wid p body] := by
      rw [hfirst]
    have hfilter2 : (performLedger db wid (some p) body).fst.submissions_raw.filter
        (fun r => r.wedding_id == wid && r.provider == "tally" &&
          r.provider_submission_id == some p) =
        [rawRowOf db.nextRawId wid p body] := by
      rw [hsub1, List.filter_append, h0, List.nil_append]
      simp only [List.filter_cons, hpredrow, if_true, List.filter_nil]
    refine ⟨by rw [hfirst], hsub1, ?_⟩
    intro body2
    have h2 := performLedger_dup ((performLedger db wid (some p) body).fst) wid p body2
      (rawRowOf db.nextRawId wid p body) hfilter2
    constructor
    · rw [h2]; simp [rawRowOf]
    · rw [h2]

def exDbLedger : DB :=
  { weddings := [{ wedding_id := exWid, public_code := "TT01" }],
    submissions_raw := [rawRowOf 5 exWid "sub1" exBodyNoContact],
    households := [], guests := [],
    nextRawId := 6, nextHouseholdKey := 0, log := [] }

/-- Witness for C2: a non-duplicate failure is surfaced unchanged; a
duplicate insert for an already-ledgered key returns the existing row id 5;
a fresh insert returns the new row id. -/
theorem ledger_duplicate_recovery_idempotent_witness :
    ledgerRecover exDb exWid none (Except.error "connection reset") =
      (exDb, Except.error "connection reset") ∧
    performLedger exDbLedger exWid (some "sub1") exBodyNoContact =
      ({ exDbLedger with log := exDbLedger.log ++ [StoreOp.insertRaw exWid (some "sub1"),
                                                   StoreOp.selectRawExisting exWid "sub1"] },
       Except.ok (some 5)) ∧
    (performLedger exDb exWid (some "sub1") exBody).snd = Except.ok (some 0) :=
  ⟨(ledger_duplicate_recovery_idempotent exDb exWid "sub1" exBody).1 none
      "connection reset" (by decide),
   (ledger_duplicate_recovery_idempotent exDbLedger exWid "sub1" exBodyNoContact).2.2.1
      (rawRowOf 5 exWid "sub1" exBodyNoContact) rfl,
   ((ledger_duplicate_recovery_idempotent exDb exWid "sub1" exBody).2.2.2 rfl).1⟩

/-- The match the specification prescribes for a contact sheet: the
household of the tenant matching the normalized phone when that key is
present, else the one matching the normalized email when that key is
present. -/
def specContactMatch (households : List Household) (wid : String)
    (phoneN emailN : Option String) : Option Household :=
  match (if truthyOptStr phoneN then
           households.find? (fun h => h.wedding_id == wid && h.phone_normalized == phoneN)
         else none) with
  | some h => some h
  | none =>
    if truthyOptStr emailN then
      households.find? (fun h => h.wedding_id == wid && h.email_normalized == emailN)
    else none

def logExtends (a b : DB) : Prop := ∃ t, b.log = a.log ++ t

theorem logExtends_trans {a b c : DB} (h1 : logExtends a b) (h2 : logExtends b c) :
    logExtends a c := by
  obtain ⟨t1, e1⟩ := h1
  obtain ⟨t2, e2⟩ := h2
  exact ⟨t1 ++ t2, by rw [e2, e1, List.append_assoc]⟩

theorem contactInsertFinish_guests (db2 : DB) (p : HouseholdPayload) :
    (contactInsertFinish db2 p).fst.guests = db2.guests := rfl

theorem contactInsertFinish_subs (db2 : DB) (p : HouseholdPayload) :
    (contactInsertFinish db2 p).fst.submissions_raw = db2.submissions_raw := rfl

theorem contactInsertFinish_log (db2 : DB) (p : HouseholdPayload) :
    logExtends db2 (contactInsertFinish db2 p).fst :=
  ⟨[StoreOp.insertHousehold p.wedding_id], rfl⟩

theorem contactFinish_guests (db2 : DB) (ex : Option Household) (p : HouseholdPayload) :
    (contactFinish db2 ex p).fst.guests = db2.guests := by
  cases ex with
  | none => rfl
  | some h =>
    simp only [contactFinish]
    split
    · rfl
    · rfl

theorem contactFinish_subs (db2 : DB) (ex : Option Household) (p : HouseholdPayload) :
    (contactFinish db2 ex p).fst.submissions_raw = db2.submissions_raw := by
  cases ex with
  | none => rfl
  | some h =>
    simp only [contactFinish]
    split
    · rfl
    · rfl

theorem contactFinish_log (db2 : DB) (ex : Option Household) (p : HouseholdPayload) :
    logExtends db2 (contactFinish db2 ex p).fst := by
  cases ex with
  | none => exact contactInsertFinish_log db2 p
  | some h =>
    simp only [contactFinish]
    split
    · exact contactInsertFinish_log db2 p
    · exact ⟨[StoreOp.updateHousehold h.id], rfl⟩

theorem contactEmailPhase_guests (db1 : DB) (wid : String) (ex0 : Option Household)
    (en : Option String) (p : HouseholdPayload) :
    (contactEmailPhase db1 wid ex0 en p).fst.guests = db1.guests := by
  simp only [contactEmailPhase, selectHouseholdByEmail, maybeSingle]
  repeat' split
  all_goals first
    | rfl
    | (rw [contactFinish_guests])

theorem contactEmailPhase_subs (db1 : DB) (wid : String) (ex0 : Option Household)
    (en : Option String) (p : HouseholdPayload) :
    (contactEmailPhase db1 wid ex0 en p).fst.submissions_raw = db1.submissions_raw := by
  simp only [contactEmailPhase, selectHouseholdByEmail, maybeSingle]
  repeat' split
  all_goals first
    | rfl
    | (rw [contactFinish_subs])

theorem contactEmailPhase_log (db1 : DB) (wid : String) (ex0 : Option Household)
    (en : Option String) (p : HouseholdPayload) :
    logExtends db1 (contactEmailPhase db1 wid ex0 en p).fst := by
  simp only [contactEmailPhase, selectHouseholdByEmail, maybeSingle]
  repeat' split
  all_goals first
    | exact ⟨[], (List.append_nil _).symm⟩
    | exact contactFinish_log _ _ _
    | exact logExtends_trans (⟨_, rfl⟩ : logExtends db1 _) (contactFinish_log _ _ _)
    | exact ⟨_, rfl⟩

theorem upsert_guests_unchanged (db : DB) (wid : String) (rsid : Option Nat)
    (body : Body) (now : Nat) :
    (upsertHouseholdFromContactSheet db wid rsid body now).fst.guests = db.guests := by
  simp only [upsertHouseholdFromContactSheet, selectHouseholdByPhone, maybeSingle]
  repeat' split
  all_goals first
    | rfl
    | (rw [contactEmailPhase_guests])

theorem upsert_submissions_unchanged (db : DB) (wid : String) (rsid : Option Nat)
    (body : Body) (now : Nat) :
    (upsertHouseholdFromContactSheet db wid rsid body now).fst.submissions_raw =
      db.submissions_raw := by
  simp only [upsertHouseholdFromContactSheet, selectHouseholdByPhone, maybeSingle]
  repeat' split
  all_goals first
    | rfl
    | (rw [contactEmailPhase_subs])

theorem upsert_log_extends (db : DB) (wid : String) (rsid : Option Nat)
    (body : Body) (now : Nat) :
    ∃ tail, (upsertHouseholdFromContactSheet db wid rsid body now).fst.log =
      db.log ++ tail := by
  simp only [upsertHouseholdFromContactSheet, selectHouseholdByPhone, maybeSingle]
  repeat' split
  all_goals first
    | exact ⟨[], (List.append_nil _).symm⟩
    | exact ⟨_, rfl⟩
    | exact contactEmailPhase_log _ _ _ _ _
    | exact logExtends_trans (⟨_, rfl⟩ : logExtends db _) (contactEmailPhase_log _ _ _ _ _)

theorem rsvp_log_extends (db : DB) (wid : String) (rsid : Option Nat)
    (body : Body) (now : Nat) :
    ∃ tail, (updateGuestsFromRsvp db wid rsid body now).fst.log = db.log ++ tail := by
  simp only [updateGuestsFromRsvp, selectHouseholdByIdAndWedding, updateGuestsOp,
    maybeSingle]
  repeat' split
  all_goals
    first
      | exact ⟨[], (List.append_nil _).symm⟩
      | exact ⟨_, rfl⟩
      | (simp only [List.append_assoc, List.cons_append, List.nil_append]
         exact ⟨_, rfl⟩)

theorem contactFinish_spec_update (db2 : DB) (h : Household) (p : HouseholdPayload)
    (hne : h.id ≠ "") :
    contactFinish db2 (some h) p =
      ({ db2 with
          households := db2.households.map (fun g =>
            if g.id == h.id then applyHouseholdPayload p g else g),
          log := db2.log ++ [StoreOp.updateHousehold h.id] },
       { ok := true, household_id := some h.id, action := some "updated" }) := by
  have hb : (h.id == "") = false := by simpa using hne
  simp only [contactFinish, hb, Bool.false_eq_true, if_false, updateHouseholdOp]

theorem contactFinish_spec_insert (db2 : DB) (p : HouseholdPayload) :
    contactFinish db2 none p =
      ({ db2 with
          households := db2.households ++
            [householdOfPayload (genHouseholdId db2.nextHouseholdKey) p],
          nextHouseholdKey := db2.nextHouseholdKey + 1,
          log := db2.log ++ [StoreOp.insertHousehold p.wedding_id] },
       { ok := true, household_id := some (genHouseholdId db2.nextHouseholdKey),
         action := some "inserted" }) := rfl

theorem contactEmailPhase_some (db1 : DB) (wid : String) (h : Household)
    (en : Option String) (p : HouseholdPayload) :
    contactEmailPhase db1 wid (some h) en p = contactFinish db1 (some h) p := rfl

theorem contactEmailPhase_none (db1 : DB) (wid : String) (en : Option String)
    (p : HouseholdPayload)
    (hcount : ∀ e, (db1.households.filter (fun h =>
        h.wedding_id == wid && h.email_normalized == some e)).length ≤ 1) :
    contactEmailPhase db1 wid none en p =
      (match en with
       | some e =>
          if e == "" then contactFinish db1 none p
          else
            contactFinish
              { db1 with log := db1.log ++ [StoreOp.selectHouseholdByEmail wid e] }
              (db1.households.find? (fun h =>
                h.wedding_id == wid && h.email_normalized == some e)) p
       | none => contactFinish db1 none p) := by
  cases en with
  | none => rfl
  | some e =>
    by_cases he0 : (e == "") = true
    · have he0x : e = "" := by simpa using he0
      subst he0x
      simp [contactEmailPhase]
    · have he0f : (e == "") = false := by simpa using he0
      have hms := maybeSingle_filter (fun h : Household =>
        h.wedding_id == wid && h.email_normalized == some e) db1.households (hcount e)
      simp only [contactEmailPhase, Option.isNone_none, if_true, he0f,
        Bool.false_eq_true, if_false, selectHouseholdByEmail, hms,
        Option.isSome_none]

/-- The household payload a contact-sheet submission produces. -/
def contactPayloadOf (wid : String) (body : Body) (rsid : Option Nat) (now : Nat) :
    HouseholdPayload :=
  mkHouseholdPayload wid (extractContactSheetFields body)
    (normalizePhone (extractContactSheetFields body).phone_raw)
    (normalizeEmail (extractContactSheetFields body).email_raw) rsid now

theorem normalizePhone_ne_empty (v : JVal) (p : String)
    (h : normalizePhone v = some p) : (p == "") = false := by
  have hlen : ∀ pre d : String, pre.length ≠ 0 → (pre ++ d == "") = false := by
    intro pre d hl
    cases hq : (pre ++ d == "") with
    | false => rfl
    | true =>
      exfalso
      have hx : pre ++ d = "" := by simpa using hq
      have h2 := congrArg String.length hx
      rw [String.length_append] at h2
      simp at h2
      exact hl h2.1
  unfold normalizePhone at h
  split at h
  · exact absurd h (by simp)
  · dsimp only at h
    split at h
    · exact absurd h (by simp)
    · split at h
      · injection h with h1
        subst h1
        exact hlen "+1" _ (by decide)
      · injection h with h1
        subst h1
        exact hlen "+" _ (by decide)

/-- C4: the contact-sheet matcher searches the tenant by normalized phone
first and by normalized email only when the phone search finds nothing; a
match is overwritten in full with the submitted contact/address payload
(which stamps the last-submission reference) and reported as updated with
the matched id; no match inserts a new household with that payload and
reports the new id as inserted.  No other table is written. -/
theorem contact_upsert_phone_then_email (db : DB) (wid : String) (rsid : Option Nat)
    (body : Body) (now : Nat)
    (hids : ∀ h ∈ db.households, h.id ≠ "")
    (hp : ∀ p, (db.households.filter (fun h =>
        h.wedding_id == wid && h.phone_normalized == some p)).length ≤ 1)
    (he : ∀ e, (db.households.filter (fun h =>
        h.wedding_id == wid && h.email_normalized == some e)).length ≤ 1)
    (hpres : truthyOptStr (normalizePhone (extractContactSheetFields body).phone_raw) = true ∨
             truthyOptStr (normalizeEmail (extractContactSheetFields body).email_raw) = true) :
    (contactPayloadOf wid body rsid now).last_submission_id = rsid ∧
    (upsertHouseholdFromContactSheet db wid rsid body now).fst.guests = db.guests ∧
    (upsertHouseholdFromContactSheet db wid rsid body now).fst.submissions_raw =
      db.submissions_raw ∧
    (match specContactMatch db.households wid
        (normalizePhone (extractContactSheetFields body).phone_raw)
        (normalizeEmail (extractContactSheetFields body).email_raw) with
     | some h =>
        (upsertHouseholdFromContactSheet db wid rsid body now).snd =
          { ok := true, household_id := some h.id, action := some "updated" } ∧
        (upsertHouseholdFromContactSheet db wid rsid body now).fst.households =
          db.households.map (fun g => if g.id == h.id then
            applyHouseholdPayload (contactPayloadOf wid body rsid now) g else g)
     | none =>
        (upsertHouseholdFromContactSheet db wid rsid body now).snd =
          { ok := true, household_id := some (genHouseholdId db.nextHouseholdKey),
            action := some "inserted" } ∧
        (upsertHouseholdFromContactSheet db wid rsid body now).fst.households =
          db.households ++ [householdOfPayload (genHouseholdId db.nextHouseholdKey)
            (contactPayloadOf wid body rsid now)]) := by
  refine ⟨rfl, upsert_guests_unchanged db wid rsid body now,
    upsert_submissions_unchanged db wid rsid body now, ?_⟩
  have h400 : (!(truthyOptStr (normalizePhone (extractContactSheetFields body).phone_raw)) &&
      !(truthyOptStr (normalizeEmail (extractContactSheetFields body).email_raw))) = false := by
    rcases hpres with h | h <;> simp [h]
  cases hP : normalizePhone (extractContactSheetFields body).phone_raw with
  | none =>
    rw [hP] at h400
    have hrun : upsertHouseholdFromContactSheet db wid rsid body now =
        contactEmailPhase db wid none
          (normalizeEmail (extractContactSheetFields body).email_raw)
          (contactPayloadOf wid body rsid now) := by
      simp only [upsertHouseholdFromContactSheet, contactPayloadOf, hP, h400,
        Bool.false_eq_true, if_false]
    rw [hrun, contactEmailPhase_none db wid _ _ he]
    cases hE : normalizeEmail (extractContactSheetFields body).email_raw with
    | none =>
      exfalso
      rcases hpres with hx | hx
      · rw [hP] at hx; exact absurd hx (by decide)
      · rw [hE] at hx; exact absurd hx (by decide)
    | some e =>
      by_cases he0 : (e == "") = true
      · exfalso
        have he0x : e = "" := by simpa using he0
        rcases hpres with hx | hx
        · rw [hP] at hx; exact absurd hx (by decide)
        · rw [hE, he0x] at hx; exact absurd hx (by decide)
      · have he0f : (e == "") = false := by simpa using he0
        simp only [he0f, Bool.false_eq_true, if_false]
        cases hfe : db.households.find? (fun h =>
            h.wedding_id == wid && h.email_normalized == some e) with
        | some h =>
          have hne := hids h (List.mem_of_find?_eq_some hfe)
          rw [contactFinish_spec_update _ _ _ hne]
          have hsp : specContactMatch db.households wid none (some e) = some h := by
            simp [specContactMatch, truthyOptStr, bne, he0f, hfe]
          rw [hsp]
          exact ⟨rfl, rfl⟩
        | none =>
          rw [contactFinish_spec_insert]
          have hsp : specContactMatch db.households wid none (some e) = none := by
            simp [specContactMatch, truthyOptStr, bne, he0f, hfe]
          rw [hsp]
          exact ⟨rfl, rfl⟩
  | some p =>
    have hp0 : (p == "") = false := normalizePhone_ne_empty _ _ hP
    have hms := maybeSingle_filter (fun h : Household =>
      h.wedding_id == wid && h.phone_normalized == some p) db.households (hp p)
    have hrun : upsertHouseholdFromContactSheet db wid rsid body now =
        contactEmailPhase
          { db with log := db.log ++ [StoreOp.selectHouseholdByPhone wid p] } wid
          (db.households.find? (fun h => h.wedding_id == wid && h.phone_normalized == some p))
          (normalizeEmail (extractContactSheetFields body).email_raw)
          (contactPayloadOf wid body rsid now) := by
      simp only [upsertHouseholdFromContactSheet, contactPayloadOf, hP, hp0,
        truthyOptStr, bne, Bool.not_false, Bool.not_true, Bool.false_and,
        Bool.false_eq_true, if_false, selectHouseholdByPhone, hms]
    rw [hrun]
    cases hfp : db.households.find? (fun h =>
        h.wedding_id == wid && h.phone_normalized == some p) with
    | some h =>
      have hne := hids h (List.mem_of_find?_eq_some hfp)
      rw [contactEmailPhase_some, contactFinish_spec_update _ _ _ hne]
      have hsp : specContactMatch db.households wid (some p)
          (normalizeEmail (extractContactSheetFields body).email_raw) = some h := by
        simp [specContactMatch, truthyOptStr, bne, hp0, hfp]
      rw [hsp]
      exact ⟨rfl, rfl⟩
    | none =>
      rw [contactEmailPhase_none
        { db with log := db.log ++ [StoreOp.selectHouseholdByPhone wid p] } wid _ _ he]
      cases hE : normalizeEmail (extractContactSheetFields body).email_raw with
      | none =>
        rw [contactFinish_spec_insert]
        have hsp : specContactMatch db.households wid (some p) none = none := by
          simp [specContactMatch, truthyOptStr, bne, hp0, hfp]
        rw [hsp]
        exact ⟨rfl, rfl⟩
      | some e =>
        by_cases he0 : (e == "") = true
        · have he0x : e = "" := by simpa using he0
          simp only [he0, if_true]
          rw [contactFinish_spec_insert]
          have hsp : specContactMatch db.households wid (some p) (some e) = none := by
            simp [specContactMatch, truthyOptStr, bne, hp0, hfp, he0x]
          rw [hsp]
          exact ⟨rfl, rfl⟩
        · have he0f : (e == "") = false := by simpa using he0
          simp only [he0f, Bool.false_eq_true, if_false]
          cases hfe : db.households.find? (fun h =>
              h.wedding_id == wid && h.email_normalized == some e) with
          | some h2 =>
            have hne2 := hids h2 (List.mem_of_find?_eq_some hfe)
            rw [contactFinish_spec_update _ _ _ hne2]
            have hsp : specContactMatch db.households wid (some p) (some e) = some h2 := by
              simp [specContactMatch, truthyOptStr, bne, hp0, hfp, he0f, hfe]
            rw [hsp]
            exact ⟨rfl, rfl⟩
          | none =>
            rw [contactFinish_spec_insert]
            have hsp : specContactMatch db.households wid (some p) (some e) = none := by
              simp [specContactMatch, truthyOptStr, bne, hp0, hfp, he0f, hfe]
            rw [hsp]
            exact ⟨rfl, rfl⟩

def exBodyContact : Body :=
  { fields := some
      [ { label := some "first_name", value := JVal.vstr "Jane" }
      , { label := some "last_name", value := JVal.vstr "Doe" }
      , { label := some "phone_number", value := JVal.vstr "555-000-1111" } ] }

def exHouseholdP : Household :=
  { id := exHid, wedding_id := exWid, primary_name := "Old Name",
    phone_raw := JVal.vstr "5550001111", phone_normalized := some "+15550001111",
    email_raw := JVal.vnull, email_normalized := none,
    address_line_1 := JVal.vnull, address_line_2 := JVal.vnull, city := JVal.vnull,
    state := JVal.vnull, postal_code := JVal.vnull, country := JVal.vnull,
    last_submission_id := some 1, updated_at := 0 }

def exDbContact : DB :=
  { weddings := [{ wedding_id := exWid, public_code := "TT01" }],
    submissions_raw := [], households := [exHouseholdP], guests := [],
    nextRawId := 0, nextHouseholdKey := 0, log := [] }

/-- Witness for C4 at a concrete submission whose normalized phone matches
the stored household. -/
theorem contact_upsert_phone_then_email_witness :
    (contactPayloadOf exWid exBodyContact (some 9) 77).last_submission_id = some 9 ∧
    (upsertHouseholdFromContactSheet exDbContact exWid (some 9) exBodyContact 77).fst.guests =
      exDbContact.guests ∧
    (upsertHouseholdFromContactSheet exDbContact exWid (some 9)
        exBodyContact 77).fst.submissions_raw = exDbContact.submissions_raw ∧
    (match specContactMatch exDbContact.households exWid
        (normalizePhone (extractContactSheetFields exBodyContact).phone_raw)
        (normalizeEmail (extractContactSheetFields exBodyContact).email_raw) with
     | some h =>
        (upsertHouseholdFromContactSheet exDbContact exWid (some 9) exBodyContact 77).snd =
          { ok := true, household_id := some h.id, action := some "updated" } ∧
        (upsertHouseholdFromContactSheet exDbContact exWid (some 9)
            exBodyContact 77).fst.households =
          exDbContact.households.map (fun g => if g.id == h.id then
            applyHouseholdPayload (contactPayloadOf exWid exBodyContact (some 9) 77) g else g)
     | none =>
        (upsertHouseholdFromContactSheet exDbContact exWid (some 9) exBodyContact 77).snd =
          { ok := true, household_id := some (genHouseholdId exDbContact.nextHouseholdKey),
            action := some "inserted" } ∧
        (upsertHouseholdFromContactSheet exDbContact exWid (some 9)
            exBodyContact 77).fst.households =
          exDbContact.households ++ [householdOfPayload
            (genHouseholdId exDbContact.nextHouseholdKey)
            (contactPayloadOf exWid exBodyContact (some 9) 77)]) :=
  contact_upsert_phone_then_email exDbContact exWid (some 9) exBodyContact 77
    (by intro h hm
        have hx : h = exHouseholdP := by simpa [exDbContact] using hm
        subst hx
        decide)
    (by intro p
        calc (exDbContact.households.filter (fun h =>
                h.wedding_id == exWid && h.phone_normalized == some p)).length
            ≤ exDbContact.households.length := List.length_filter_le _ _
          _ ≤ 1 := by decide)
    (by intro e
        calc (exDbContact.households.filter (fun h =>
                h.wedding_id == exWid && h.email_normalized == some e)).length
            ≤ exDbContact.households.length := List.length_filter_le _ _
          _ ≤ 1 := by decide)
    (Or.inl (by decide))

/-- Helper: under the store-enforced ledger uniqueness invariant, the
ledgering step never fails: it yields a ledger reference (or null), appends
the insert operation to the log first, and touches no other table. -/
theorem performLedger_ok (db : DB) (wid : String) (psid : Option String) (body : Body)
    (hraw : ∀ q, (db.submissions_raw.filter (fun r =>
        r.wedding_id == wid && r.provider == "tally" &&
        r.provider_submission_id == some q)).length ≤ 1) :
    (∃ v, (performLedger db wid psid body).snd = Except.ok v) ∧
    (∃ rest, (performLedger db wid psid body).fst.log =
      db.log ++ [StoreOp.insertRaw wid psid] ++ rest) ∧
    (performLedger db wid psid body).fst.households = db.households ∧
    (performLedger db wid psid body).fst.guests = db.guests := by
  cases psid with
  | none =>
    refine ⟨⟨some db.nextRawId, rfl⟩, ⟨[], ?_⟩, rfl, rfl⟩
    simp [performLedger, insertRawOp, rawKeyConflict, ledgerRecover]
  | some p =>
    have hcase := hraw p
    match hf : db.submissions_raw.filter (fun r =>
        r.wedding_id == wid && r.provider == "tally" &&
        r.provider_submission_id == some p) with
    | [] =>
      rw [performLedger_fresh db wid p body hf]
      exact ⟨⟨some db.nextRawId, rfl⟩, ⟨[], by simp⟩, rfl, rfl⟩
    | [e] =>
      rw [performLedger_dup db wid p body e hf]
      exact ⟨⟨some e.id, rfl⟩, ⟨[StoreOp.selectRawExisting wid p], by simp⟩, rfl, rfl⟩
    | x :: y :: t =>
      rw [hf] at hcase
      simp at hcase

/-- C9: once the public code resolves to a tenant, the raw payload is
ledgered right after the tenant lookup and before any routing branch runs,
whichever branch (or none) follows; and a form type other than
"contact_sheet" and "rsvp" (an absent one included) triggers no further
processing: the response is a 200 success flagged "raw_only" and the
household and guest tables are untouched. -/
theorem router_ledgers_unconditionally_and_raw_only (db : DB) (req : Request)
    (now : Nat) (code : String) (w : Wedding)
    (hm : req.method = "POST")
    (hcode : extractPublicCode (req.body.getD {}) = JVal.vstr code)
    (hne : ((jsTrim code).length == 0) = false)
    (hw : db.weddings.filter (fun x => x.public_code == code) = [w])
    (hu : isUuid w.wedding_id = true)
    (hraw : ∀ q, (db.submissions_raw.filter (fun r =>
        r.wedding_id == w.wedding_id && r.provider == "tally" &&
        r.provider_submission_id == some q)).length ≤ 1) :
    (∃ rest, (handler db req now).fst.log =
      db.log ++ [StoreOp.selectWedding code,
                 StoreOp.insertRaw w.wedding_id
                   (extractProviderSubmissionId (req.body.getD {}))] ++ rest) ∧
    (jvalEqPrim (extractFormType (req.body.getD {})) (JVal.vstr "contact_sheet") = false →
     jvalEqPrim (extractFormType (req.body.getD {})) (JVal.vstr "rsvp") = false →
     (handler db req now).snd = HttpResponse.json 200
        { ok := true, routed := some "raw_only",
          form_type := some (extractFormType (req.body.getD {})) } ∧
     (handler db req now).fst.households = db.households ∧
     (handler db req now).fst.guests = db.guests) := by
  have hmf : (req.method != "POST") = false := by simp [hm]
  have hwme : maybeSingle (db.weddings.filter (fun x => x.public_code == code)) =
      Except.ok (some w) := by rw [hw]; rfl
  have hrun : handler db req now =
      afterResolve { db with log := db.log ++ [StoreOp.selectWedding code] } w.wedding_id
        (req.body.getD {}) (extractFormType (req.body.getD {})) now := by
    simp only [handler, hmf, Bool.false_eq_true, if_false, hcode, hne, selectWeddingOp,
      hwme, hu, Bool.not_true]
  have hled := performLedger_ok { db with log := db.log ++ [StoreOp.selectWedding code] }
    w.wedding_id (extractProviderSubmissionId (req.body.getD {})) (req.body.getD {}) hraw
  obtain ⟨⟨v, hv⟩, ⟨rest1, hlog1⟩, hhh1, hgg1⟩ := hled
  rw [hrun]
  constructor
  · -- the ledgering happens before any branch, in every branch
    simp only [afterResolve, hv]
    cases hc1 : jvalEqPrim (extractFormType (req.body.getD {})) (JVal.vstr "contact_sheet") with
    | true =>
      simp only [hc1, if_true]
      obtain ⟨t2, h2⟩ := upsert_log_extends (performLedger
        { db with log := db.log ++ [StoreOp.selectWedding code] } w.wedding_id
        (extractProviderSubmissionId (req.body.getD {})) (req.body.getD {})).fst
        w.wedding_id v (req.body.getD {}) now
      refine ⟨rest1 ++ t2, ?_⟩
      split
      all_goals (rw [h2, hlog1]; simp)
    | false =>
      simp only [hc1, Bool.false_eq_true, if_false]
      cases hc2 : jvalEqPrim (extractFormType (req.body.getD {})) (JVal.vstr "rsvp") with
      | true =>
        simp only [hc2, if_true]
        obtain ⟨t2, h2⟩ := rsvp_log_extends (performLedger
          { db with log := db.log ++ [StoreOp.selectWedding code] } w.wedding_id
          (extractProviderSubmissionId (req.body.getD {})) (req.body.getD {})).fst
          w.wedding_id v (req.body.getD {}) now
        refine ⟨rest1 ++ t2, ?_⟩
        split
        all_goals (rw [h2, hlog1]; simp)
      | false =>
        simp only [hc2, Bool.false_eq_true, if_false]
        refine ⟨rest1, ?_⟩
        rw [hlog1]
        simp
  · intro hc1 hc2
    simp only [afterResolve, hv, hc1, hc2, Bool.false_eq_true, if_false]
    exact ⟨by trivial, hhh1, hgg1⟩

def exBodyRaw : Body :=
  { fields := some
      [ { label := some "w", value := JVal.vstr "TT01" }
      , { label := some "form_type", value := JVal.vstr "mystery" } ] }

def exReqRaw : Request := { method := "POST", body := some exBodyRaw }

def exWedding : Wedding := { wedding_id := exWid, public_code := "TT01" }

/-- Witness for C9 at a concrete request whose form type is the unknown
"mystery": the ledger insert is logged right after the tenant lookup and the
response is the raw-only success. -/
theorem router_ledgers_unconditionally_and_raw_only_witness :
    (∃ rest, (handler exDb exReqRaw 5).fst.log =
      exDb.log ++ [StoreOp.selectWedding "TT01",
                   StoreOp.insertRaw exWid
                     (extractProviderSubmissionId (exReqRaw.body.getD {}))] ++ rest) ∧
    (jvalEqPrim (extractFormType (exReqRaw.body.getD {})) (JVal.vstr "contact_sheet") = false →
     jvalEqPrim (extractFormType (exReqRaw.body.getD {})) (JVal.vstr "rsvp") = false →
     (handler exDb exReqRaw 5).snd = HttpResponse.json 200
        { ok := true, routed := some "raw_only",
          form_type := some (extractFormType (exReqRaw.body.getD {})) } ∧
     (handler exDb exReqRaw 5).fst.households = exDb.households ∧
     (handler exDb exReqRaw 5).fst.guests = exDb.guests) :=
  router_ledgers_unconditionally_and_raw_only exDb exReqRaw 5 "TT01" exWedding
    rfl rfl (by decide) rfl (by decide)
    (by intro q; simp [exDb])

/-- A payload value JS strict equality can report equal to another (its
`typeof` is not object). -/
def isPrimJ : JVal → Bool
  | JVal.varr _ => false
  | _ => true

/-- A scalar payload value (string, number or boolean). -/
def isScalarJ : JVal → Bool
  | JVal.vstr _ => true
  | JVal.vnum _ => true
  | JVal.vbool _ => true
  | _ => false

/-- A Map key position: `undefined` or a primitive value. -/
def keyPrim : Option JVal → Bool
  | some v => isPrimJ v
  | none => true

theorem jvalEqPrim_true_iff (a b : JVal) :
    jvalEqPrim a b = true ↔ a = b ∧ isPrimJ a = true := by
  cases a <;> cases b <;> simp [jvalEqPrim, isPrimJ]

theorem idKeyEq_true_iff (x y : Option JVal) :
    idKeyEq x y = true ↔ x = y ∧ keyPrim x = true := by
  cases x <;> cases y <;> simp [idKeyEq, keyPrim, jvalEqPrim_true_iff]

theorem find?_first_decomp {α : Type} (p : α → Bool) (l : List α) (f : α)
    (h : l.find? p = some f) :
    ∃ l1 l2, l = l1 ++ f :: l2 ∧ ∀ g ∈ l1, p g = false := by
  induction l with
  | nil => simp [List.find?] at h
  | cons a t ih =>
    rw [List.find?_cons] at h
    cases ha : p a with
    | true =>
      rw [ha] at h
      injection h with h1
      subst h1
      exact ⟨[], t, rfl, by simp⟩
    | false =>
      rw [ha] at h
      obtain ⟨l1, l2, hl, hall⟩ := ih h
      refine ⟨a :: l1, l2, by rw [hl]; rfl, ?_⟩
      intro g hg
      rcases List.mem_cons.mp hg with hg | hg
      · subst hg; exact ha
      · exact hall g hg

theorem mapLookupLast_eq_find? (entries : List (Option JVal × Option JVal))
    (k : Option JVal)
    (hnd : List.Pairwise (fun a b : Option JVal × Option JVal =>
      idKeyEq a.fst b.fst = false) entries) :
    mapLookupLast entries k =
      (entries.find? (fun e => idKeyEq e.fst k)).map Prod.snd := by
  induction entries with
  | nil => rfl
  | cons e rest ih =>
    obtain ⟨hhead, hrestnd⟩ := List.pairwise_cons.mp hnd
    rw [mapLookupLast, ih hrestnd, List.find?_cons]
    cases hk : idKeyEq e.fst k with
    | true =>
      have hrest : rest.find? (fun x => idKeyEq x.fst k) = none := by
        rw [List.find?_eq_none]
        intro x hx hxk
        obtain ⟨hek, hep⟩ := (idKeyEq_true_iff _ _).mp hk
        obtain ⟨hxkq, _⟩ := (idKeyEq_true_iff _ _).mp (by simpa using hxk)
        have : idKeyEq e.fst x.fst = true :=
          (idKeyEq_true_iff _ _).mpr ⟨by rw [hek, hxkq], hep⟩
        rw [hhead x hx] at this
        exact absurd this (by simp)
      rw [hrest]
      rfl
    | false =>
      cases hf : rest.find? (fun x => idKeyEq x.fst k) <;> rfl

theorem resolve_list_eq (opts : List TOption) (vs : List JVal)
    (hvs : ∀ v ∈ vs, ∃ s, v = JVal.vstr s)
    (hwf : ∀ o ∈ opts, (∃ i, o.id = some (JVal.vstr i)) ∧
      ∃ t, o.text = some t ∧ t ≠ JVal.vnull)
    (hnd : List.Pairwise (fun a b : TOption => idKeyEq a.id b.id = false) opts) :
    ((vs.map (fun v =>
        match mapLookupLast (opts.map (fun o => (o.id, o.text))) (some v) with
        | some t => t
        | none => some v)).filterMap (fun x =>
      match x with
      | none => none
      | some JVal.vnull => none
      | some v => some v)) =
    vs.map (fun v =>
      match opts.find? (fun o => idKeyEq o.id (some v)) with
      | some o => o.text.getD JVal.vnull
      | none => v) := by
  have hndE : List.Pairwise (fun a b : Option JVal × Option JVal =>
      idKeyEq a.fst b.fst = false) (opts.map (fun o => (o.id, o.text))) := by
    rw [List.pairwise_map]
    exact hnd
  have hfind : ∀ v : JVal,
      (opts.map (fun o => (o.id, o.text))).find? (fun e => idKeyEq e.fst (some v)) =
      (opts.find? (fun o => idKeyEq o.id (some v))).map (fun o => (o.id, o.text)) := by
    intro v
    rw [List.find?_map]
    rfl
  induction vs with
  | nil => rfl
  | cons v rest ih =>
    have hv := hvs v (List.mem_cons_self v rest)
    obtain ⟨s, hsv⟩ := hv
    have ihr := ih (fun x hx => hvs x (List.mem_cons_of_mem v hx))
    rw [List.map_cons, List.map_cons, List.filterMap_cons]
    rw [mapLookupLast_eq_find? _ _ hndE, hfind v]
    cases hfo : opts.find? (fun o => idKeyEq o.id (some v)) with
    | some o =>
      obtain ⟨-, t, ht, htn⟩ := hwf o (List.mem_of_find?_eq_some hfo)
      dsimp only [Option.map]
      rw [ht]
      simp only [Option.getD_some]
      cases t with
      | vnull => exact absurd rfl htn
      | vbool b => rw [ihr]
      | vnum n => rw [ihr]
      | vstr s2 => rw [ihr]
      | varr a => rw [ihr]
    | none =>
      dsimp only [Option.map]
      subst hsv
      dsimp only
      rw [ihr]

/-- C7: field extraction returns the value of the first descriptor whose
label matches, or nothing when no label matches, and is total; option
resolution passes scalar values through unchanged, and on an identifier
list over a well-formed options list (string ids, pairwise-distinct keys,
present non-null texts) it replaces each identifier that is an option id
by that option text and passes any other identifier through unchanged. -/
theorem field_extraction_and_option_resolution :
    (∀ (body : Body) (label : String) (f : TField),
        findFieldByLabel body label = some f →
        f.label = some label ∧
        ∃ l1 l2, getFieldsArray body = l1 ++ f :: l2 ∧
          ∀ g ∈ l1, g.label ≠ some label) ∧
    (∀ (body : Body) (label : String),
        findFieldByLabel body label = none →
        ∀ g ∈ getFieldsArray body, g.label ≠ some label) ∧
    (∀ f : TField, isScalarJ f.value = true → resolveOptionTexts (some f) = f.value) ∧
    (∀ (f : TField) (vs : List JVal) (opts : List TOption),
        f.value = JVal.varr vs → f.options = some opts →
        (∀ v ∈ vs, ∃ s, v = JVal.vstr s) →
        (∀ o ∈ opts, (∃ i, o.id = some (JVal.vstr i)) ∧
          ∃ t, o.text = some t ∧ t ≠ JVal.vnull) →
        List.Pairwise (fun a b : TOption => idKeyEq a.id b.id = false) opts →
        resolveOptionTexts (some f) =
          JVal.varr (vs.map (fun v =>
            match opts.find? (fun o => idKeyEq o.id (some v)) with
            | some o => o.text.getD JVal.vnull
            | none => v))) := by
  refine ⟨?_, ?_, ?_, ?_⟩
  · intro body label f h
    have hp := List.find?_some h
    constructor
    · simpa using hp
    · obtain ⟨l1, l2, hl, hall⟩ := find?_first_decomp _ _ _ h
      exact ⟨l1, l2, hl, fun g hg => by simpa using hall g hg⟩
  · intro body label h g hg
    have := List.find?_eq_none.mp h g hg
    simpa using this
  · intro f hs
    cases hv : f.value with
    | vstr s => simp [resolveOptionTexts, hv]
    | vnum n => simp [resolveOptionTexts, hv]
    | vbool b => simp [resolveOptionTexts, hv]
    | vnull => rw [hv] at hs; exact absurd hs (by simp [isScalarJ])
    | varr a => rw [hv] at hs; exact absurd hs (by simp [isScalarJ])
  · intro f vs opts hval hopts hvs hwf hnd
    simp only [resolveOptionTexts, hval, hopts, Option.getD_some]
    rw [resolve_list_eq opts vs hvs hwf hnd]

def exF7body : Body :=
  { fields := some
      [ { label := some "a", value := JVal.vstr "1" }
      , { label := some "w", value := JVal.vstr "TT01" } ] }

def exFieldW : TField := { label := some "w", value := JVal.vstr "TT01" }

def exScalarF : TField := { label := some "x", value := JVal.vnum 7 }

def exOpt1 : TOption :=
  { id := some (JVal.vstr "opt1"), text := some (JVal.vstr "Ceremony") }

def exOpts : List TOption := [exOpt1]

def exOptF : TField :=
  { label := some "events_attending",
    value := JVal.varr [JVal.vstr "opt1", JVal.vstr "zz"],
    options := some exOpts }

/-- Witness for C7: label lookup finds the "w" field and reports absence of
an unknown label; a numeric scalar passes through; an id list resolves the
known id to its option text and passes the unknown id through. -/
theorem field_extraction_and_option_resolution_witness :
    (exFieldW.label = some "w" ∧
      ∃ l1 l2, getFieldsArray exF7body = l1 ++ exFieldW :: l2 ∧
        ∀ g ∈ l1, g.label ≠ some "w") ∧
    (∀ g ∈ getFieldsArray exF7body, g.label ≠ some "zzz") ∧
    resolveOptionTexts (some exScalarF) = exScalarF.value ∧
    resolveOptionTexts (some exOptF) =
      JVal.varr (([JVal.vstr "opt1", JVal.vstr "zz"] : List JVal).map (fun v =>
        match exOpts.find? (fun o => idKeyEq o.id (some v)) with
        | some o => o.text.getD JVal.vnull
        | none => v)) ∧
    resolveOptionTexts (some exOptF) =
      JVal.varr [JVal.vstr "Ceremony", JVal.vstr "zz"] :=
  ⟨field_extraction_and_option_resolution.1 exF7body "w" exFieldW rfl,
   field_extraction_and_option_resolution.2.1 exF7body "zzz" rfl,
   field_extraction_and_option_resolution.2.2.1 exScalarF rfl,
   field_extraction_and_option_resolution.2.2.2 exOptF
     [JVal.vstr "opt1", JVal.vstr "zz"] exOpts rfl rfl
     (by intro v hv
         rcases List.mem_cons.mp hv with h | h
         · exact ⟨"opt1", h⟩
         · exact ⟨"zz", by simpa using h⟩)
     (by intro o ho
         have hx : o = exOpt1 := by simpa [exOpts] using ho
         subst hx
         exact ⟨⟨"opt1", rfl⟩, JVal.vstr "Ceremony", rfl, by simp⟩)
     (by simp [exOpts]),
   rfl⟩
